import Mathlib

/-!
Verification of the GPS/frame-timestamp correlation pipeline.

A shallow embedding, in Lean 4, of `main.py` of this repository: the
position-log parser, the time normalizer, the nearest-timestamp
associator, the centroid calculator, the GeoJSON assembler and the
batch orchestrator, together with theorems settling the specification
claims about them.

Modelling conventions:
* Python exceptions are modelled with `Except PyErr`; each distinct
  error condition of the error-handling design gets its own
  constructor.
* Python `float` values are idealized as exact rationals (`ℚ`); IEEE
  rounding is out of scope.  Where the source multiplies or divides
  floats inside a parser, the embedding builds the exact rational with
  `mkRat` (kernel-computable); lemmas relate these to the ordinary
  field operations on `ℚ`.
* Python strings are Lean `String`s, but all text processing is done
  on the underlying character lists, since the embedding must be
  executable by kernel reduction.  The helpers (`pySplit`,
  `pyStartsWith`, …) model the Python `str` methods used by the
  source.
* `datetime.strptime`/`datetime.timestamp` are standard-library
  behaviour, modelled by an explicit proleptic-Gregorian calendar
  computation; the naive datetime's UTC offset is taken to be zero
  (the spec's "no timezone conversion" reading).
-/

/-- The error conditions of the pipeline, one constructor per distinct
failure condition of the error-handling design (Python raises
`ValueError`, `KeyError`, `TypeError`, `IndexError` or
`FileNotFoundError` for these; the taxonomy names of the design are
used here). -/
inductive PyErr where
  /-- `min` applied to an empty position track (`ValueError`). -/
  | emptyTrackError
  /-- centroid of an empty collection (`ValueError`). -/
  | emptyInputError
  /-- a centroid record without both coordinate keys (`ValueError`). -/
  | schemaError
  /-- malformed position-log data line (`IndexError`/`ValueError`). -/
  | parseError
  /-- subscripting `None` or a non-dict (`TypeError`). -/
  | typeError
  /-- missing `timestamps` key (`KeyError`). -/
  | keyError
  /-- no `.pos` file in the folder (`FileNotFoundError`). -/
  | fileNotFoundError
deriving DecidableEq, Repr

/-- One `(timestamp, latitude, longitude)` tuple of the position
track, as produced by `parse_pos_file`. -/
structure PosSample where
  timestamp : ℤ
  latitude : ℚ
  longitude : ℚ
deriving DecidableEq, Repr

/-- One association record (the dict built by
`associate_timestamps_with_gps`). -/
structure Assoc where
  index : ℤ
  timestamp : ℤ
  latitude : ℚ
  longitude : ℚ
deriving DecidableEq, Repr

/-- A record that may or may not carry the two coordinate keys: the
input shape of `calculate_centroid` (a Python dict, with `none`
modelling an absent key). -/
structure Loc where
  latitude : Option ℚ
  longitude : Option ℚ
deriving DecidableEq, Repr

/-! ## Python `str` helpers (over character lists, kernel-computable) -/

/-- `s.startswith(pre)`. -/
def pyStartsWith (s pre : String) : Bool :=
  pre.data.isPrefixOf s.data

/-- `s.endswith(suf)`. -/
def pyEndsWith (s suf : String) : Bool :=
  suf.data.isSuffixOf s.data

/-- `not s.strip()`: the line contains only whitespace. -/
def pyIsBlank (s : String) : Bool :=
  s.data.all Char.isWhitespace

/-- Worker for `pySplit`: splits at whitespace runs, dropping empty
fields, with `acc` holding the reversed current field. -/
def pySplitGo (acc : List Char) : List Char → List (List Char)
  | [] => if acc.isEmpty then [] else [acc.reverse]
  | c :: cs =>
    if c.isWhitespace then
      if acc.isEmpty then pySplitGo [] cs
      else acc.reverse :: pySplitGo [] cs
    else pySplitGo (c :: acc) cs

/-- `s.split()` with no argument: whitespace-delimited fields, runs of
whitespace collapsed, no empty fields. -/
def pySplit (s : String) : List (List Char) :=
  pySplitGo [] s.data

/-- Worker for `splitOnChar`. -/
def splitOnCharGo (sep : Char) : List Char → List (List Char)
  | [] => [[]]
  | c :: cs =>
    if c = sep then [] :: splitOnCharGo sep cs
    else
      match splitOnCharGo sep cs with
      | [] => [[c]]
      | h :: t => (c :: h) :: t

/-- `s.split(sep)` for a one-character separator: keeps empty fields. -/
def splitOnChar (sep : Char) (l : List Char) : List (List Char) :=
  splitOnCharGo sep l

/-- The numeric value of a non-empty all-digit character list
(`int(s)` on the digit strings produced by the lexical split);
`none` if empty or not all digits. -/
def digitsVal (l : List Char) : Option ℕ :=
  if l.isEmpty then none
  else if l.all Char.isDigit then
    some (l.foldl (fun acc c => acc * 10 + (c.toNat - 48)) 0)
  else none

/-! ## Time Normalizer -/

/-- Python `int(x)` on a float: truncation toward zero, on the exact
rational idealizing the float. -/
def pyInt (q : ℚ) : ℤ :=
  Int.tdiv q.num q.den

/-- The exact value of the float product `q * 1e9`
(kernel-computable form; `ratTimesPow9_eq` relates it to `q * 10^9`). -/
def ratTimesPow9 (q : ℚ) : ℚ :=
  mkRat (q.num * 1000000000) q.den

/-- `date_str_to_timestamp` of `main.py`, on a datetime whose
`timestamp()` is `s` whole seconds plus `microsecond` microseconds
(UTC offset zero).  Python float arithmetic is idealized as exact
rational arithmetic: `timestamp_seconds` is the exact value of
`dt.timestamp()`, and `int(timestamp_seconds * 1e9)` is
`pyInt (ratTimesPow9 timestamp_seconds)`.  Note that
`timestamp_seconds` already contains the sub-second part, and the
source adds `microseconds * 1000` on top of it. -/
def date_str_to_timestamp (s : ℤ) (microsecond : ℕ) : ℤ :=
  let timestamp_seconds : ℚ := mkRat (s * 1000000 + microsecond) 1000000
  let nanoseconds : ℤ := microsecond * 1000
  pyInt (ratTimesPow9 timestamp_seconds) + nanoseconds

/-- Modelled from the spec: the Time Normalizer contract
`nanos = floor(seconds_since_epoch) * 1e9 + microsecond_component * 1000`,
for comparison against the source's `date_str_to_timestamp`. -/
def date_str_to_timestamp_spec (s : ℤ) (microsecond : ℕ) : ℤ :=
  s * 1000000000 + microsecond * 1000

/-! ## `datetime.strptime(_, "%Y/%m/%d %H:%M:%S.%f").timestamp()`
(standard-library behaviour, modelled explicitly) -/

/-- Gregorian leap year. -/
def isLeapYear (y : ℕ) : Bool :=
  (y % 4 = 0 && y % 100 ≠ 0) || y % 400 = 0

/-- Days in a month of the proleptic Gregorian calendar. -/
def daysInMonth (y m : ℕ) : ℕ :=
  if m = 2 then (if isLeapYear y then 29 else 28)
  else if m = 4 ∨ m = 6 ∨ m = 9 ∨ m = 11 then 30
  else 31

/-- Days from 1970-01-01 to the civil date `y-m-d` (standard
days-from-civil computation). -/
def daysFromCivil (y m d : ℕ) : ℤ :=
  let yAdj : ℕ := if m ≤ 2 then y - 1 else y
  let era : ℕ := yAdj / 400
  let yoe : ℕ := yAdj - era * 400
  let mp : ℕ := (m + 9) % 12
  let doy : ℕ := (153 * mp + 2) / 5 + (d - 1)
  let doe : ℕ := yoe * 365 + yoe / 4 - yoe / 100 + doy
  (era : ℤ) * 146097 + (doe : ℤ) - 719468

/-- `datetime.strptime(date ++ " " ++ time, "%Y/%m/%d %H:%M:%S.%f")`
followed by `.timestamp()` (UTC offset zero): returns the whole
seconds since the epoch and the microsecond component, or a parse
failure if the two fields do not match the format. -/
def strptimeTimestamp (date time : List Char) : Except PyErr (ℤ × ℕ) :=
  match splitOnChar '/' date with
  | [ys, ms, ds] =>
    match digitsVal ys, digitsVal ms, digitsVal ds with
    | some y, some mo, some d =>
      if 1 ≤ y ∧ y ≤ 9999 ∧ 1 ≤ mo ∧ mo ≤ 12 ∧ 1 ≤ d ∧ d ≤ daysInMonth y mo then
        match splitOnChar ':' time with
        | [hs, mins, secf] =>
          match splitOnChar '.' secf with
          | [ss, fs] =>
            match digitsVal hs, digitsVal mins, digitsVal ss, digitsVal fs with
            | some h, some mi, some sec, some frac =>
              if h ≤ 23 ∧ mi ≤ 59 ∧ sec ≤ 59 ∧ fs.length ≤ 6 then
                .ok (daysFromCivil y mo d * 86400 + (h * 3600 + mi * 60 + sec : ℕ),
                     frac * 10 ^ (6 - fs.length))
              else .error .parseError
            | _, _, _, _ => .error .parseError
          | _ => .error .parseError
        | _ => .error .parseError
      else .error .parseError
    | _, _, _ => .error .parseError
  | _ => .error .parseError

/-- `float(s)` on the decimal literals of the position log: optional
sign, integer digits, optional fractional digits.  The exact decimal
value is produced with `mkRat` (kernel-computable). -/
def pyFloat (l : List Char) : Except PyErr ℚ :=
  let (sgn, rest) :=
    match l with
    | '-' :: cs => ((-1 : ℤ), cs)
    | '+' :: cs => ((1 : ℤ), cs)
    | cs => ((1 : ℤ), cs)
  match splitOnChar '.' rest with
  | [ip] =>
    match digitsVal ip with
    | some n => .ok (mkRat (sgn * n) 1)
    | none => .error .parseError
  | [ip, fp] =>
    if ip.isEmpty ∧ fp.isEmpty then .error .parseError
    else
      match digitsVal (if ip.isEmpty then ['0'] else ip),
            digitsVal (if fp.isEmpty then ['0'] else fp) with
      | some n, some f =>
        .ok (mkRat (sgn * (n * 10 ^ fp.length + f)) (10 ^ fp.length))
      | _, _ => .error .parseError
  | _ => .error .parseError

/-! ## Position Track Parser -/

/-- One data line of the position log: split on whitespace; fields 0–1
are the timestamp (date, time) handed to `strptime` and
`date_str_to_timestamp`; fields 2–3 are latitude and longitude
(`float`).  A line with fewer than four fields, or with malformed
fields, raises (`IndexError`/`ValueError`). -/
def parsePosLine (line : String) : Except PyErr PosSample :=
  match pySplit line with
  | p0 :: p1 :: p2 :: p3 :: _ =>
    match strptimeTimestamp p0 p1 with
    | .error e => .error e
    | .ok (s, microsecond) =>
      match pyFloat p2 with
      | .error e => .error e
      | .ok latitude =>
        match pyFloat p3 with
        | .error e => .error e
        | .ok longitude =>
          .ok ⟨date_str_to_timestamp s microsecond, latitude, longitude⟩
  | _ => .error .parseError

/-- The loop of `parse_pos_file` over the data section: skip comment
(`%`-prefixed) and blank lines, parse every other line in encounter
order; a parse failure propagates. -/
def parsePosDataLines : List String → Except PyErr (List PosSample)
  | [] => .ok []
  | line :: rest =>
    if pyStartsWith line "%" || pyIsBlank line then parsePosDataLines rest
    else
      match parsePosLine line with
      | .error e => .error e
      | .ok sample =>
        match parsePosDataLines rest with
        | .error e => .error e
        | .ok track => .ok (sample :: track)

/-- `next((i + 1 for i, line in enumerate(lines) if line.startswith('%  GPST')), None)`:
the index one past the first marker line. -/
def findDataStart : List String → ℕ → Option ℕ
  | [], _ => none
  | line :: rest, i =>
    if pyStartsWith line "%  GPST" then some (i + 1)
    else findDataStart rest (i + 1)

/-- `parse_pos_file` of `main.py`, on the lines of the file: if no
`'%  GPST'` marker line exists the track is empty (not an error);
otherwise the lines after the marker are the data section. -/
def parse_pos_file (lines : List String) : Except PyErr (List PosSample) :=
  match findDataStart lines 0 with
  | none => .ok []
  | some data_start_index => parsePosDataLines (lines.drop data_start_index)

/-! ## Timestamp Associator -/

/-- Python `min(l, key=key)`: `none` on an empty sequence
(`ValueError`), otherwise the fold that replaces the current minimum
only on a strictly smaller key — the first minimal element wins. -/
def pyMinBy {α : Type} (key : α → ℤ) : List α → Option α
  | [] => none
  | x :: xs => some (xs.foldl (fun acc y => if key y < key acc then y else acc) x)

/-- `find_closest_timestamp` of `main.py`: the coordinates of the
`min` of `pos_data` under the key `abs(x[0] - target_timestamp)`;
fails on an empty track (Python `min` raises `ValueError`). -/
def find_closest_timestamp (pos_data : List PosSample) (target_timestamp : ℤ) :
    Except PyErr (ℚ × ℚ) :=
  match pyMinBy (fun x => |x.timestamp - target_timestamp|) pos_data with
  | none => .error .emptyTrackError
  | some closest => .ok (closest.latitude, closest.longitude)

/-- `associate_timestamps_with_gps` of `main.py`, on the
`json_data['timestamps']` list of `(index, timestamp)` pairs: one
association per frame, in frame order; an association failure
propagates. -/
def associate_timestamps_with_gps (timestamps : List (ℤ × ℤ))
    (pos_data : List PosSample) : Except PyErr (List Assoc) :=
  match timestamps with
  | [] => .ok []
  | frame :: rest =>
    match find_closest_timestamp pos_data frame.2 with
    | .error e => .error e
    | .ok (latitude, longitude) =>
      match associate_timestamps_with_gps rest pos_data with
      | .error e => .error e
      | .ok associations => .ok (⟨frame.1, frame.2, latitude, longitude⟩ :: associations)

/-! ## Centroid Calculator -/

/-- `calculate_centroid` of `main.py`: fails on an empty list, fails
if any record does not carry both coordinate keys, otherwise the
arithmetic mean of the latitudes and of the longitudes.  The third
guard of the source (empty projected lists) is kept even though it
can never fire after the first. -/
def calculate_centroid (locations : List Loc) : Except PyErr (ℚ × ℚ) :=
  if locations.isEmpty then .error .emptyInputError
  else if !locations.all (fun loc => loc.latitude.isSome && loc.longitude.isSome) then
    .error .schemaError
  else
    let latitudes := locations.map fun loc => loc.latitude.getD 0
    let longitudes := locations.map fun loc => loc.longitude.getD 0
    if latitudes.isEmpty || longitudes.isEmpty then .error .emptyInputError
    else .ok (latitudes.sum / latitudes.length, longitudes.sum / longitudes.length)

/-! ## GeoJSON Assembler -/

/-- Python/JSON values, as far as the pipeline manipulates them:
strings, integers, floats (exact rationals), arrays and objects
(dicts, as ordered key/value lists). -/
inductive Json where
  | null
  | str (s : String)
  | int (n : ℤ)
  | num (q : ℚ)
  | arr (elems : List Json)
  | obj (fields : List (String × Json))

/-- `d.get(key, default)` on a dict. -/
def dictGet (d : List (String × Json)) (key : String) (default : Json) : Json :=
  match d.lookup key with
  | some v => v
  | none => default

/-- Field lookup on an object value (`none` on a non-object). -/
def objLookup (j : Json) (key : String) : Option Json :=
  match j with
  | .obj fields => fields.lookup key
  | _ => none

/-- `generate_geojson_output` of `main.py`: the GeoJSON
FeatureCollection dict, with one Feature per association, the
passthrough metadata fields (with their `json_data.get` defaults), and
the centroid. -/
def generate_geojson_output (json_data : List (String × Json))
    (associations : List Assoc) (centroid : ℚ × ℚ) : Json :=
  let features := associations.map fun assoc =>
    Json.obj [
      ("type", .str "Feature"),
      ("geometry", .obj [
        ("type", .str "Point"),
        ("coordinates", .arr [.num assoc.longitude, .num assoc.latitude])]),
      ("properties", .obj [
        ("index", .int assoc.index),
        ("timestamp", .int assoc.timestamp)])]
  Json.obj [
    ("type", .str "FeatureCollection"),
    ("filename", dictGet json_data "filename" (.str "")),
    ("device_alias", dictGet json_data "device_alias" (.str "")),
    ("total", dictGet json_data "total" (.int 0)),
    ("beginning", dictGet json_data "beginning" (.str "")),
    ("end", dictGet json_data "end" (.str "")),
    ("centroid", .obj [
      ("lat", .num centroid.1),
      ("lon", .num centroid.2)]),
    ("features", .arr features)]

/-! ## Session Orchestrator (`process_files`) -/

/-- One file of the input folder, at the boundary the orchestrator
sees it: its raw text (as lines, for the `.pos` parser) and the
outcome of `json.load` on it (`none` models `parse_json_file`
returning `None` on a read/decode failure). -/
structure PyFile where
  lines : List String
  json : Option Json

/-- `frame[0]`, `frame[1]` on each element of
`json_data['timestamps']`: the list of `(index, timestamp)` pairs, or
the exception subscripting raises when `json_data` is `None`, not a
dict, lacks the key, or a frame is not a pair of numbers. -/
def getTimestamps (json_data : Option Json) : Except PyErr (List (ℤ × ℤ)) :=
  match json_data with
  | none => .error .typeError
  | some (.obj fields) =>
    match fields.lookup "timestamps" with
    | none => .error .keyError
    | some (.arr frames) =>
      frames.foldr (fun frame acc =>
        match frame with
        | .arr (.int i :: .int t :: _) =>
          match acc with
          | .error e => .error e
          | .ok rest => .ok ((i, t) :: rest)
        | _ => .error .typeError) (.ok [])
    | some _ => .error .typeError
  | some _ => .error .typeError

/-- The passthrough metadata dict of a parsed manifest (the manifest
is a dict by the time the pipeline reaches `generate_geojson_output`). -/
def manifestFields (json_data : Option Json) : List (String × Json) :=
  match json_data with
  | some (.obj fields) => fields
  | _ => []

/-- The per-manifest pipeline body of the `process_files` loop:
extract the frames, associate, compute the centroid, assemble the
output document; the first exception aborts the manifest. -/
def processManifest (pos_data : List PosSample) (json_data : Option Json) :
    Except PyErr Json :=
  match getTimestamps json_data with
  | .error e => .error e
  | .ok timestamps =>
    match associate_timestamps_with_gps timestamps pos_data with
    | .error e => .error e
    | .ok associations =>
      match calculate_centroid (associations.map fun a => ⟨some a.latitude, some a.longitude⟩) with
      | .error e => .error e
      | .ok centroid =>
        .ok (generate_geojson_output (manifestFields json_data) associations centroid)

/-- The `for index, json_file in json_files` loop of `process_files`:
outputs written so far are kept; the first uncaught exception stops
the loop (there is no per-manifest exception handling in the source). -/
def processLoop (pos_data : List PosSample) (output_file : String) :
    List (ℕ × PyFile) → List (String × Json) × Option PyErr
  | [] => ([], none)
  | (index, file) :: rest =>
    match processManifest pos_data file.json with
    | .error e => ([], some e)
    | .ok geojson =>
      let (written, err) := processLoop pos_data output_file rest
      ((output_file ++ "_" ++ toString index ++ ".json", geojson) :: written, err)

/-- `process_files` of `main.py`, on the folder contents (filename and
file, in listing order): the `.json` files keep their index in the
full listing; the first `.pos` file is the shared position log, whose
absence is fatal before anything is processed.  The result is the
list of written output documents together with the uncaught exception
that ended the batch, if any. -/
def process_files (files : List (String × PyFile)) (output_file : String) :
    List (String × Json) × Option PyErr :=
  let json_files := (files.enum.filter fun p => pyEndsWith p.2.1 ".json").map
    fun p => (p.1, p.2.2)
  match files.find? (fun p => pyEndsWith p.1 ".pos") with
  | none => ([], some .fileNotFoundError)
  | some (_, pos_file) =>
    match parse_pos_file pos_file.lines with
    | .error e => ([], some e)
    | .ok pos_data => processLoop pos_data output_file json_files

/-! ## Example folders for the orchestration claims -/

/-- A position log: junk before the marker, the `%  GPST` marker, a
comment line, one valid data line. -/
def examplePosLines : List String :=
  ["header junk", "%  GPST          latitude  longitude", "% comment",
   "2024/01/01 00:00:00.000 1.0 2.0"]

/-- A manifest whose `timestamps` list is empty: its associations are
empty, so its centroid computation raises. -/
def exampleManifestEmpty : Json := .obj [("timestamps", .arr [])]

/-- A well-formed manifest with one frame. -/
def exampleManifestGood : Json :=
  .obj [("timestamps", .arr [.arr [.int 0, .int 1704067200000000000]])]

/-- A folder with the position log, a failing manifest, and a good
manifest after it. -/
def exampleFolderAB : List (String × PyFile) :=
  [("track.pos", ⟨examplePosLines, none⟩),
   ("a.json", ⟨[], some exampleManifestEmpty⟩),
   ("b.json", ⟨[], some exampleManifestGood⟩)]

/-- The same folder without the failing manifest. -/
def exampleFolderB : List (String × PyFile) :=
  [("track.pos", ⟨examplePosLines, none⟩),
   ("b.json", ⟨[], some exampleManifestGood⟩)]

/-! ## Lemmas: Python `min` as a fold -/

/-- The `min(_, key=_)` fold: the result is either the seed (no
element of the list has a strictly smaller key, so the seed is a
minimum) or the first element of the list attaining the list's
minimum, with a key strictly below the seed's. -/
theorem minFold_spec {α : Type} (key : α → ℤ) (l : List α) (a : α) :
    (l.foldl (fun acc y => if key y < key acc then y else acc) a = a ∧
      ∀ j (hj : j < l.length), key a ≤ key (l.get ⟨j, hj⟩)) ∨
    (∃ i, ∃ hi : i < l.length,
      l.foldl (fun acc y => if key y < key acc then y else acc) a = l.get ⟨i, hi⟩ ∧
      key (l.get ⟨i, hi⟩) < key a ∧
      (∀ j (hj : j < l.length), key (l.get ⟨i, hi⟩) ≤ key (l.get ⟨j, hj⟩)) ∧
      (∀ j (hj : j < l.length), j < i → key (l.get ⟨i, hi⟩) < key (l.get ⟨j, hj⟩))) := by
  induction l generalizing a with
  | nil =>
    left
    exact ⟨rfl, fun j hj => absurd hj (Nat.not_lt_zero j)⟩
  | cons x xs ih =>
    rw [List.foldl_cons]
    by_cases hx : key x < key a
    · rw [if_pos hx]
      rcases ih x with ⟨he, hall⟩ | ⟨i, hi, he, hlt, hmin, hfirst⟩
      · right
        refine ⟨0, by simp, by simpa using he, by simpa using hx, ?_, ?_⟩
        · intro j hj
          rcases j with _ | j
          · simp
          · simpa using hall j (by simpa using hj)
        · intro j hj hji
          omega
      · right
        refine ⟨i + 1, by simpa using hi, by simpa using he, ?_, ?_, ?_⟩
        · simpa using lt_trans hlt hx
        · intro j hj
          rcases j with _ | j
          · simpa using le_of_lt hlt
          · simpa using hmin j (by simpa using hj)
        · intro j hj hji
          rcases j with _ | j
          · simpa using hlt
          · simpa using hfirst j (by simpa using hj) (by omega)
    · rw [if_neg hx]
      rcases ih a with ⟨he, hall⟩ | ⟨i, hi, he, hlt, hmin, hfirst⟩
      · left
        refine ⟨he, ?_⟩
        intro j hj
        rcases j with _ | j
        · simpa using le_of_not_lt hx
        · simpa using hall j (by simpa using hj)
      · right
        refine ⟨i + 1, by simpa using hi, by simpa using he, hlt, ?_, ?_⟩
        · intro j hj
          rcases j with _ | j
          · simpa using le_of_lt (lt_of_lt_of_le hlt (le_of_not_lt hx))
          · simpa using hmin j (by simpa using hj)
        · intro j hj hji
          rcases j with _ | j
          · simpa using lt_of_lt_of_le hlt (le_of_not_lt hx)
          · simpa using hfirst j (by simpa using hj) (by omega)

/-- `find_closest_timestamp` on a non-empty track returns the
coordinates of the first sample attaining the minimal time distance. -/
theorem find_closest_timestamp_first_argmin (pos_data : List PosSample)
    (target_timestamp : ℤ) (h : pos_data ≠ []) :
    ∃ i, ∃ hi : i < pos_data.length,
      find_closest_timestamp pos_data target_timestamp =
        .ok ((pos_data.get ⟨i, hi⟩).latitude, (pos_data.get ⟨i, hi⟩).longitude) ∧
      (∀ j (hj : j < pos_data.length),
        |(pos_data.get ⟨i, hi⟩).timestamp - target_timestamp| ≤
          |(pos_data.get ⟨j, hj⟩).timestamp - target_timestamp|) ∧
      (∀ j (hj : j < pos_data.length), j < i →
        |(pos_data.get ⟨i, hi⟩).timestamp - target_timestamp| <
          |(pos_data.get ⟨j, hj⟩).timestamp - target_timestamp|) := by
  match pos_data with
  | [] => exact absurd rfl h
  | x :: xs =>
    have hspec := minFold_spec (fun s => |s.timestamp - target_timestamp|) xs x
    rcases hspec with ⟨he, hall⟩ | ⟨i, hi, he, hlt, hmin, hfirst⟩
    · refine ⟨0, by simp, ?_, ?_, ?_⟩
      · simp only [find_closest_timestamp, pyMinBy, he]
        rfl
      · intro j hj
        rcases j with _ | j
        · simp
        · simpa using hall j (by simpa using hj)
      · intro j hj hji
        omega
    · refine ⟨i + 1, by simpa using hi, ?_, ?_, ?_⟩
      · simp only [find_closest_timestamp, pyMinBy, he]
        rfl
      · intro j hj
        rcases j with _ | j
        · simpa using le_of_lt hlt
        · simpa using hmin j (by simpa using hj)
      · intro j hj hji
        rcases j with _ | j
        · simpa using hlt
        · simpa using hfirst j (by simpa using hj) (by omega)

/-- C1: for every non-empty position track and every target
timestamp, `find_closest_timestamp` returns the coordinates of a
sample of the track whose absolute time distance to the target is a
global minimum: less than or equal to the distance of every other
sample. -/
theorem find_closest_timestamp_global_min (pos_data : List PosSample)
    (target_timestamp : ℤ) (h : pos_data ≠ []) :
    ∃ i, ∃ hi : i < pos_data.length,
      find_closest_timestamp pos_data target_timestamp =
        .ok ((pos_data.get ⟨i, hi⟩).latitude, (pos_data.get ⟨i, hi⟩).longitude) ∧
      ∀ j (hj : j < pos_data.length),
        |(pos_data.get ⟨i, hi⟩).timestamp - target_timestamp| ≤
          |(pos_data.get ⟨j, hj⟩).timestamp - target_timestamp| := by
  obtain ⟨i, hi, he, hmin, _⟩ :=
    find_closest_timestamp_first_argmin pos_data target_timestamp h
  exact ⟨i, hi, he, hmin⟩

/-- C1 witness: on the track `[(0,1,2), (100,3,4)]` with target 30. -/
theorem find_closest_timestamp_global_min_witness :
    ([⟨0, 1, 2⟩, ⟨100, 3, 4⟩] : List PosSample) ≠ [] ∧
    (∃ i, ∃ hi : i < ([⟨0, 1, 2⟩, ⟨100, 3, 4⟩] : List PosSample).length,
      find_closest_timestamp [⟨0, 1, 2⟩, ⟨100, 3, 4⟩] 30 =
        .ok ((([⟨0, 1, 2⟩, ⟨100, 3, 4⟩] : List PosSample).get ⟨i, hi⟩).latitude,
             (([⟨0, 1, 2⟩, ⟨100, 3, 4⟩] : List PosSample).get ⟨i, hi⟩).longitude) ∧
      ∀ j (hj : j < ([⟨0, 1, 2⟩, ⟨100, 3, 4⟩] : List PosSample).length),
        |(([⟨0, 1, 2⟩, ⟨100, 3, 4⟩] : List PosSample).get ⟨i, hi⟩).timestamp - 30| ≤
          |(([⟨0, 1, 2⟩, ⟨100, 3, 4⟩] : List PosSample).get ⟨j, hj⟩).timestamp - 30|) :=
  ⟨List.cons_ne_nil _ _,
   find_closest_timestamp_global_min [⟨0, 1, 2⟩, ⟨100, 3, 4⟩] 30 (List.cons_ne_nil _ _)⟩

/-- C3: association against an empty track fails with the
empty-track error (Python `min` raises `ValueError`); it never
returns a default, placeholder or sentinel coordinate. -/
theorem find_closest_timestamp_empty_track (target_timestamp : ℤ) :
    find_closest_timestamp [] target_timestamp = .error .emptyTrackError :=
  rfl

/-- C5: if two samples of the track are equidistant from the target
and that distance is minimal, `find_closest_timestamp` returns the
first sample attaining that distance — a sample at an index no later
than the earlier of the two, never the later one. -/
theorem find_closest_timestamp_tie_break_first (pos_data : List PosSample)
    (target_timestamp : ℤ) (i j : ℕ)
    (hi : i < pos_data.length) (hj : j < pos_data.length) (hij : i < j)
    (heq : |(pos_data.get ⟨i, hi⟩).timestamp - target_timestamp| =
      |(pos_data.get ⟨j, hj⟩).timestamp - target_timestamp|)
    (hminimal : ∀ k (hk : k < pos_data.length),
      |(pos_data.get ⟨i, hi⟩).timestamp - target_timestamp| ≤
        |(pos_data.get ⟨k, hk⟩).timestamp - target_timestamp|) :
    ∃ m, ∃ hm : m < pos_data.length, m ≤ i ∧
      |(pos_data.get ⟨m, hm⟩).timestamp - target_timestamp| =
        |(pos_data.get ⟨i, hi⟩).timestamp - target_timestamp| ∧
      find_closest_timestamp pos_data target_timestamp =
        .ok ((pos_data.get ⟨m, hm⟩).latitude, (pos_data.get ⟨m, hm⟩).longitude) := by
  have hne : pos_data ≠ [] := by
    intro hnil
    rw [hnil] at hi
    exact absurd hi (Nat.not_lt_zero i)
  obtain ⟨m, hm, he, hmin, hfirst⟩ :=
    find_closest_timestamp_first_argmin pos_data target_timestamp hne
  have hmi : m ≤ i := by
    by_contra hcon
    exact absurd (hminimal m hm) (not_le_of_lt (hfirst i hi (by omega)))
  exact ⟨m, hm, hmi, le_antisymm (hmin i hi) (hminimal m hm), he⟩

/-- C5 witness: the track `[(0,1,2), (60,3,4)]` with target 30 — the
two samples are equidistant and the earlier one (index 0) wins. -/
theorem find_closest_timestamp_tie_break_first_witness :
    (|(([⟨0, 1, 2⟩, ⟨60, 3, 4⟩] : List PosSample).get ⟨0, by decide⟩).timestamp - 30| =
      |(([⟨0, 1, 2⟩, ⟨60, 3, 4⟩] : List PosSample).get ⟨1, by decide⟩).timestamp - 30|) ∧
    (∃ m, ∃ hm : m < ([⟨0, 1, 2⟩, ⟨60, 3, 4⟩] : List PosSample).length, m ≤ 0 ∧
      |(([⟨0, 1, 2⟩, ⟨60, 3, 4⟩] : List PosSample).get ⟨m, hm⟩).timestamp - 30| =
        |(([⟨0, 1, 2⟩, ⟨60, 3, 4⟩] : List PosSample).get ⟨0, by decide⟩).timestamp - 30| ∧
      find_closest_timestamp [⟨0, 1, 2⟩, ⟨60, 3, 4⟩] 30 =
        .ok ((([⟨0, 1, 2⟩, ⟨60, 3, 4⟩] : List PosSample).get ⟨m, hm⟩).latitude,
             (([⟨0, 1, 2⟩, ⟨60, 3, 4⟩] : List PosSample).get ⟨m, hm⟩).longitude)) :=
  ⟨by decide,
   find_closest_timestamp_tie_break_first [⟨0, 1, 2⟩, ⟨60, 3, 4⟩] 30 0 1
     (by decide) (by decide) (by decide) (by decide) (by decide)⟩

/-- On a non-empty track, `find_closest_timestamp` succeeds. -/
theorem find_closest_timestamp_ok_of_ne_nil (pos_data : List PosSample)
    (target_timestamp : ℤ) (h : pos_data ≠ []) :
    ∃ latitude longitude,
      find_closest_timestamp pos_data target_timestamp = .ok (latitude, longitude) := by
  match pos_data with
  | [] => exact absurd rfl h
  | x :: xs => exact ⟨_, _, rfl⟩

/-- C8: for every manifest and non-empty track, the associator
produces exactly one association per frame entry, in frame order,
each carrying that entry's index and timestamp unchanged (so the
projection of the associations back to `(index, timestamp)` pairs is
the manifest's `timestamps` list itself). -/
theorem associate_timestamps_with_gps_preserves_frames
    (timestamps : List (ℤ × ℤ)) (pos_data : List PosSample) (h : pos_data ≠ []) :
    ∃ associations,
      associate_timestamps_with_gps timestamps pos_data = .ok associations ∧
      associations.length = timestamps.length ∧
      associations.map (fun a => (a.index, a.timestamp)) = timestamps := by
  induction timestamps with
  | nil => exact ⟨[], rfl, rfl, rfl⟩
  | cons frame rest ih =>
    obtain ⟨as, has, hlen, hmap⟩ := ih
    obtain ⟨latitude, longitude, hp⟩ :=
      find_closest_timestamp_ok_of_ne_nil pos_data frame.2 h
    refine ⟨⟨frame.1, frame.2, latitude, longitude⟩ :: as, ?_, ?_, ?_⟩
    · simp [associate_timestamps_with_gps, hp, has]
    · simpa using hlen
    · simpa using hmap

/-- C8 witness: two frames against a one-sample track. -/
theorem associate_timestamps_with_gps_preserves_frames_witness :
    ([⟨5, 1, 2⟩] : List PosSample) ≠ [] ∧
    (∃ associations,
      associate_timestamps_with_gps [(0, 4), (1, 100)] [⟨5, 1, 2⟩] = .ok associations ∧
      associations.length = ([(0, 4), (1, 100)] : List (ℤ × ℤ)).length ∧
      associations.map (fun a => (a.index, a.timestamp)) = [(0, 4), (1, 100)]) :=
  ⟨List.cons_ne_nil _ _,
   associate_timestamps_with_gps_preserves_frames [(0, 4), (1, 100)] [⟨5, 1, 2⟩]
     (List.cons_ne_nil _ _)⟩

/-- `calculate_centroid` of the empty collection raises the
empty-input error. -/
theorem calculate_centroid_nil : calculate_centroid [] = .error .emptyInputError :=
  rfl

/-- `calculate_centroid` raises the schema error as soon as one
record lacks one of the two coordinate keys. -/
theorem calculate_centroid_missing_key (locations : List Loc) (loc : Loc)
    (hmem : loc ∈ locations)
    (hnone : loc.latitude = none ∨ loc.longitude = none) :
    calculate_centroid locations = .error .schemaError := by
  have hne : locations ≠ [] := List.ne_nil_of_mem hmem
  have hall : locations.all (fun l => l.latitude.isSome && l.longitude.isSome) = false := by
    rw [List.all_eq_false]
    refine ⟨loc, hmem, ?_⟩
    rcases hnone with h | h <;> simp [h]
  rw [calculate_centroid, if_neg (by simpa using hne), hall]
  rfl

/-- `calculate_centroid` on a non-empty collection in which every
record carries both coordinate keys returns the arithmetic mean of
the latitudes and the arithmetic mean of the longitudes. -/
theorem calculate_centroid_ok (locations : List Loc) (hne : locations ≠ [])
    (hall : ∀ loc ∈ locations, loc.latitude.isSome ∧ loc.longitude.isSome) :
    calculate_centroid locations =
      .ok ((locations.map fun loc => loc.latitude.getD 0).sum / locations.length,
           (locations.map fun loc => loc.longitude.getD 0).sum / locations.length) := by
  have hallb : locations.all (fun l => l.latitude.isSome && l.longitude.isSome) = true := by
    rw [List.all_eq_true]
    intro l hl
    simpa using hall l hl
  rw [calculate_centroid, if_neg (by simpa using hne), hallb]
  simp [hne]

/-- C6 counterexample: the record `{latitude: 1}` does not lack both
coordinate fields (it has a latitude), and the collection is
non-empty, yet `calculate_centroid` fails with the schema error
instead of returning a mean — the source requires every record to
carry *both* keys, not merely to have at least one. -/
theorem calculate_centroid_one_sided_record :
    ¬((Loc.mk (some 1) none).latitude = none ∧ (Loc.mk (some 1) none).longitude = none) ∧
    ([⟨some 1, none⟩] : List Loc) ≠ [] ∧
    calculate_centroid [⟨some 1, none⟩] = .error .schemaError ∧
    ∀ p : ℚ × ℚ, calculate_centroid [⟨some 1, none⟩] ≠ .ok p := by
  refine ⟨by simp, by simp, rfl, ?_⟩
  intro p hp
  rw [calculate_centroid_missing_key [⟨some 1, none⟩] ⟨some 1, none⟩ (by simp) (by simp)] at hp
  exact absurd hp (by simp)

/-- C6 (amended): the centroid calculator fails with the empty-input
error on zero records; it fails with the schema error if any record
lacks either of the two coordinate fields (i.e. does not carry both);
otherwise it returns the arithmetic mean of the latitudes and the
arithmetic mean of the longitudes, computed independently. -/
theorem calculate_centroid_characterization :
    calculate_centroid [] = .error .emptyInputError ∧
    (∀ (locations : List Loc) (loc : Loc), loc ∈ locations →
      loc.latitude = none ∨ loc.longitude = none →
      calculate_centroid locations = .error .schemaError) ∧
    (∀ locations : List Loc, locations ≠ [] →
      (∀ loc ∈ locations, loc.latitude.isSome ∧ loc.longitude.isSome) →
      calculate_centroid locations =
        .ok ((locations.map fun loc => loc.latitude.getD 0).sum / locations.length,
             (locations.map fun loc => loc.longitude.getD 0).sum / locations.length)) :=
  ⟨calculate_centroid_nil, calculate_centroid_missing_key, calculate_centroid_ok⟩

/-- C6 witness: a record lacking only its longitude makes the schema
error fire; a fully-keyed two-record collection yields the means. -/
theorem calculate_centroid_characterization_witness :
    (⟨some 1, none⟩ : Loc) ∈ ([⟨some 1, none⟩, ⟨some 2, some 3⟩] : List Loc) ∧
    calculate_centroid [⟨some 1, none⟩, ⟨some 2, some 3⟩] = .error .schemaError ∧
    ([⟨some 4, some 6⟩, ⟨some 2, some 10⟩] : List Loc) ≠ [] ∧
    calculate_centroid [⟨some 4, some 6⟩, ⟨some 2, some 10⟩] =
      .ok ((([⟨some 4, some 6⟩, ⟨some 2, some 10⟩] : List Loc).map
              fun loc => loc.latitude.getD 0).sum /
             ([⟨some 4, some 6⟩, ⟨some 2, some 10⟩] : List Loc).length,
           (([⟨some 4, some 6⟩, ⟨some 2, some 10⟩] : List Loc).map
              fun loc => loc.longitude.getD 0).sum /
             ([⟨some 4, some 6⟩, ⟨some 2, some 10⟩] : List Loc).length) :=
  ⟨by simp,
   calculate_centroid_characterization.2.1 _ ⟨some 1, none⟩ (by simp) (by simp),
   by simp,
   calculate_centroid_characterization.2.2 _ (by simp) (by simp)⟩

/-- C9: the centroid of a collection in which every record is the
same point equals that point exactly, and the centroid is invariant
under any permutation of the input collection (coordinates idealized
as exact rationals). -/
theorem calculate_centroid_replicate_and_perm :
    (∀ (n : ℕ) (p : ℚ × ℚ), 0 < n →
      calculate_centroid (List.replicate n ⟨some p.1, some p.2⟩) = .ok p) ∧
    (∀ locations1 locations2 : List Loc, locations1.Perm locations2 →
      calculate_centroid locations1 = calculate_centroid locations2) := by
  constructor
  · intro n p hn
    have hne : List.replicate n (⟨some p.1, some p.2⟩ : Loc) ≠ [] :=
      List.length_pos.mp (by simpa using hn)
    rw [calculate_centroid_ok _ hne (by intro loc hloc; rw [List.eq_of_mem_replicate hloc]; simp)]
    have hn0 : (n : ℚ) ≠ 0 := Nat.cast_ne_zero.mpr (by omega)
    simp [List.map_replicate, List.sum_replicate, nsmul_eq_mul, mul_div_cancel_left₀, hn0]
  · intro l1 l2 hperm
    by_cases h1 : l1 = []
    · subst h1
      rw [hperm.symm.eq_nil]
    · have h2 : l2 ≠ [] := by
        intro hnil
        rw [hnil] at hperm
        exact h1 hperm.eq_nil
      by_cases hall : ∀ loc ∈ l1, loc.latitude.isSome ∧ loc.longitude.isSome
      · have hall2 : ∀ loc ∈ l2, loc.latitude.isSome ∧ loc.longitude.isSome :=
          fun loc hloc => hall loc (hperm.mem_iff.mpr hloc)
        rw [calculate_centroid_ok l1 h1 hall, calculate_centroid_ok l2 h2 hall2,
          List.Perm.sum_eq (hperm.map _), List.Perm.sum_eq (hperm.map _), hperm.length_eq]
      · have hex : ∃ loc ∈ l1, loc.latitude = none ∨ loc.longitude = none := by
          by_contra hcon
          push_neg at hcon
          exact hall fun loc hloc =>
            ⟨Option.ne_none_iff_isSome.mp (hcon loc hloc).1,
             Option.ne_none_iff_isSome.mp (hcon loc hloc).2⟩
        obtain ⟨loc, hmem, hd⟩ := hex
        rw [calculate_centroid_missing_key l1 loc hmem hd,
          calculate_centroid_missing_key l2 loc (hperm.mem_iff.mp hmem) hd]

/-- C9 witness: three copies of the point `(1, 2)`, and a two-element
swap. -/
theorem calculate_centroid_replicate_and_perm_witness :
    0 < 3 ∧
    calculate_centroid (List.replicate 3 ⟨some 1, some 2⟩) = .ok (1, 2) ∧
    calculate_centroid [⟨some 1, some 2⟩, ⟨some 3, some 4⟩] =
      calculate_centroid [⟨some 3, some 4⟩, ⟨some 1, some 2⟩] :=
  ⟨by decide, calculate_centroid_replicate_and_perm.1 3 (1, 2) (by decide),
   calculate_centroid_replicate_and_perm.2 _ _ (List.Perm.swap _ _ _)⟩

/-- `ratTimesPow9` is exact multiplication by `10^9`. -/
theorem ratTimesPow9_eq (q : ℚ) : ratTimesPow9 q = q * 1000000000 := by
  unfold ratTimesPow9
  rw [Rat.mkRat_eq_div]
  push_cast
  rw [mul_div_right_comm, Rat.num_div_den]

/-- `pyInt` on an integer value is that integer. -/
theorem pyInt_intCast (n : ℤ) : pyInt ((n : ℚ)) = n := by
  unfold pyInt
  rw [Rat.num_intCast, Rat.den_intCast]
  simp [Int.tdiv_one]

/-- Closed form of the source's conversion: since `dt.timestamp()`
already carries the sub-second part, the microseconds are counted
twice. -/
theorem date_str_to_timestamp_eq (s : ℤ) (microsecond : ℕ) :
    date_str_to_timestamp s microsecond = s * 1000000000 + 2000 * microsecond := by
  have h : ratTimesPow9 (mkRat (s * 1000000 + microsecond) 1000000) =
      ((s * 1000000000 + microsecond * 1000 : ℤ) : ℚ) := by
    rw [ratTimesPow9_eq, Rat.mkRat_eq_div]
    push_cast
    field_simp
    ring
  simp only [date_str_to_timestamp]
  rw [h, pyInt_intCast]
  push_cast
  ring

/-- C2: on the datetime `2019/03/07 10:11:26.217313` (whole seconds
1551949886, microsecond component 217313) the source conversion does
not satisfy the contract
`nanos = floor(seconds_since_epoch) * 1e9 + microseconds * 1000`: it
counts the sub-second part twice (once inside `dt.timestamp()` and
once as `microseconds * 1000`), so the microsecond component is not
preserved.  Even with Python's float arithmetic idealized as exact,
the result exceeds the contract value by `217313000` nanoseconds. -/
theorem date_str_to_timestamp_violates_contract :
    date_str_to_timestamp 1551949886 217313 = 1551949886434626000 ∧
    date_str_to_timestamp_spec 1551949886 217313 = 1551949886217313000 ∧
    date_str_to_timestamp 1551949886 217313 ≠
      date_str_to_timestamp_spec 1551949886 217313 := by
  refine ⟨?_, by norm_num [date_str_to_timestamp_spec], ?_⟩
  · rw [date_str_to_timestamp_eq]
    norm_num
  · rw [date_str_to_timestamp_eq]
    norm_num [date_str_to_timestamp_spec]

/-- C7: the assembled GeoJSON document is a FeatureCollection; its
`features` array has one Feature per association, in association
order, each a Point with `[longitude, latitude]` coordinates and
properties carrying the index and timestamp only; its `centroid`
object carries the `lat`/`lon` keys; and each passthrough metadata
field is the manifest's value when present, its typed default when
absent. -/
theorem generate_geojson_output_shape (json_data : List (String × Json))
    (associations : List Assoc) (centroid : ℚ × ℚ) :
    objLookup (generate_geojson_output json_data associations centroid) "type" =
      some (.str "FeatureCollection") ∧
    objLookup (generate_geojson_output json_data associations centroid) "features" =
      some (.arr (associations.map fun assoc => Json.obj [
        ("type", .str "Feature"),
        ("geometry", .obj [
          ("type", .str "Point"),
          ("coordinates", .arr [.num assoc.longitude, .num assoc.latitude])]),
        ("properties", .obj [
          ("index", .int assoc.index),
          ("timestamp", .int assoc.timestamp)])])) ∧
    objLookup (generate_geojson_output json_data associations centroid) "centroid" =
      some (.obj [("lat", .num centroid.1), ("lon", .num centroid.2)]) ∧
    objLookup (generate_geojson_output json_data associations centroid) "filename" =
      some ((json_data.lookup "filename").getD (.str "")) ∧
    objLookup (generate_geojson_output json_data associations centroid) "device_alias" =
      some ((json_data.lookup "device_alias").getD (.str "")) ∧
    objLookup (generate_geojson_output json_data associations centroid) "total" =
      some ((json_data.lookup "total").getD (.int 0)) ∧
    objLookup (generate_geojson_output json_data associations centroid) "beginning" =
      some ((json_data.lookup "beginning").getD (.str "")) ∧
    objLookup (generate_geojson_output json_data associations centroid) "end" =
      some ((json_data.lookup "end").getD (.str "")) := by
  have hmeta : ∀ (key : String) (dflt : Json),
      dictGet json_data key dflt = (json_data.lookup key).getD dflt := by
    intro key dflt
    unfold dictGet
    cases List.lookup key json_data <;> rfl
  refine ⟨rfl, rfl, rfl, ?_, ?_, ?_, ?_, ?_⟩ <;>
    rw [← hmeta] <;> rfl

/-- If no line starts with the sentinel marker, the marker search
fails. -/
theorem findDataStart_eq_none :
    ∀ (lines : List String) (k : ℕ),
      (∀ line ∈ lines, pyStartsWith line "%  GPST" = false) →
      findDataStart lines k = none := by
  intro lines
  induction lines with
  | nil => intro k _; rfl
  | cons line rest ih =>
    intro k h
    rw [findDataStart, if_neg (by simp [h line (List.mem_cons_self _ _)])]
    exact ih (k + 1) fun l hl => h l (List.mem_cons_of_mem _ hl)

/-- The marker search finds the first marker line and points one past
it. -/
theorem findDataStart_marker (marker : String) (post : List String)
    (hm : pyStartsWith marker "%  GPST" = true) :
    ∀ (pre : List String) (k : ℕ),
      (∀ line ∈ pre, pyStartsWith line "%  GPST" = false) →
      findDataStart (pre ++ marker :: post) k = some (k + pre.length + 1) := by
  intro pre
  induction pre with
  | nil => intro k _; simp [findDataStart, hm]
  | cons line rest ih =>
    intro k h
    rw [List.cons_append, findDataStart,
      if_neg (by simp [h line (List.mem_cons_self _ _)]),
      ih (k + 1) fun l hl => h l (List.mem_cons_of_mem _ hl)]
    congr 1
    simp
    omega

/-- The data-section loop parses exactly the non-comment, non-blank
lines, in encounter order. -/
theorem parsePosDataLines_forall₂ :
    ∀ (post : List String) (track : List PosSample),
      List.Forall₂ (fun line sample => parsePosLine line = .ok sample)
        (post.filter fun line => !(pyStartsWith line "%" || pyIsBlank line)) track →
      parsePosDataLines post = .ok track := by
  intro post
  induction post with
  | nil =>
    intro track h
    cases h
    rfl
  | cons line rest ih =>
    intro track h
    rw [List.filter_cons] at h
    by_cases hskip : (pyStartsWith line "%" || pyIsBlank line) = true
    · rw [if_neg (by simp [hskip])] at h
      rw [parsePosDataLines, if_pos hskip]
      exact ih track h
    · rw [if_pos (by simp [Bool.not_eq_true] at hskip ⊢; exact hskip)] at h
      cases h with
      | cons hrel htail =>
        rw [parsePosDataLines, if_neg hskip, hrel, ih _ htail]

/-- C10: if the position log has no line beginning with the sentinel
`'%  GPST'`, the parser returns an empty track (not an error); after
the first marker line, lines beginning with `'%'` or containing only
whitespace are skipped, and every other line contributes exactly one
`(timestamp, latitude, longitude)` sample, in encounter order. -/
theorem parse_pos_file_sections :
    (∀ lines : List String,
      (∀ line ∈ lines, pyStartsWith line "%  GPST" = false) →
      parse_pos_file lines = .ok []) ∧
    (∀ (pre : List String) (marker : String) (post : List String) (track : List PosSample),
      (∀ line ∈ pre, pyStartsWith line "%  GPST" = false) →
      pyStartsWith marker "%  GPST" = true →
      List.Forall₂ (fun line sample => parsePosLine line = .ok sample)
        (post.filter fun line => !(pyStartsWith line "%" || pyIsBlank line)) track →
      parse_pos_file (pre ++ marker :: post) = .ok track) := by
  constructor
  · intro lines h
    rw [parse_pos_file, findDataStart_eq_none lines 0 h]
  · intro pre marker post track hpre hm hf
    rw [parse_pos_file, findDataStart_marker marker post hm pre 0 hpre]
    have hdrop : (pre ++ marker :: post).drop (0 + pre.length + 1) = post := by
      have hsplit : pre ++ marker :: post = (pre ++ [marker]) ++ post := by simp
      rw [hsplit]
      apply List.drop_left'
      simp [Nat.add_comm]
    show parsePosDataLines ((pre ++ marker :: post).drop (0 + pre.length + 1)) = .ok track
    rw [hdrop]
    exact parsePosDataLines_forall₂ post track hf

/-- C10 witness: a log with no marker parses to the empty track; a
log with junk before the marker, a comment line and a blank line in
the data section parses to exactly the two data samples, in order. -/
theorem parse_pos_file_sections_witness :
    parse_pos_file ["% header", "2024/01/01 00:00:00.000 1.5 2.0"] = .ok [] ∧
    parse_pos_file
      ["junk", "%  GPST hdr", "% comment", "  ",
       "2024/01/01 00:00:00.000 1.5 2.0",
       "2024/01/01 00:01:00.500 -33.5 151.25"] =
      .ok [⟨1704067200000000000, mkRat 15 10, mkRat 20 10⟩,
           ⟨1704067261000000000, mkRat (-335) 10, mkRat 15125 100⟩] :=
  ⟨parse_pos_file_sections.1 _ (by decide),
   parse_pos_file_sections.2 ["junk"] "%  GPST hdr"
     ["% comment", "  ",
      "2024/01/01 00:00:00.000 1.5 2.0",
      "2024/01/01 00:01:00.500 -33.5 151.25"]
     [⟨1704067200000000000, mkRat 15 10, mkRat 20 10⟩,
      ⟨1704067261000000000, mkRat (-335) 10, mkRat 15125 100⟩]
     (by decide) (by decide)
     (List.Forall₂.cons rfl (List.Forall₂.cons rfl List.Forall₂.nil))⟩

/-- C4: a failure while processing one manifest aborts the whole
batch in the source (the loop has no per-manifest exception
handling): with the failing manifest `a.json` (empty `timestamps`,
so its centroid computation raises) listed before the well-formed
`b.json`, nothing at all is written and the batch ends with the
uncaught error — while the same `b.json` alone processes to one
output document.  Only the missing-position-log case aborts the
batch by design. -/
theorem process_files_aborts_on_manifest_failure :
    process_files exampleFolderAB "geojson" = ([], some .emptyInputError) ∧
    (process_files exampleFolderB "geojson").2 = none ∧
    (process_files exampleFolderB "geojson").1.length = 1 :=
  ⟨rfl, rfl, rfl⟩
